import Mathlib

/-!
Shallow embedding of the Develeb-Platform backend job service
(`packages/backend/src/api/job/jobService.ts`) and the user repository
(`userRepository`), with the claims of the specification settled as theorems.

Modelling conventions:
* The database is a `DbState` record of row lists; each drizzle query is
  translated to the corresponding pure list operation, threading the state.
* Express `req`/`res` become explicit arguments and an `HResponse` record
  that captures the status code and the JSON body fields the claims mention.
* A database call that may throw is given an extra `dbErr : Option String`
  argument: `some m` means the awaited call rejected with an error whose
  `.message` is `m`; `none` means it succeeded.
* `parseInt(x, 10)` on a request parameter is modelled by passing the
  already-parsed value as `Option Int` (`none` = absent or `NaN`).
* JS `x.toLowerCase()` on ASCII role strings is modelled by `String.toLower`.
-/

namespace Develeb

/-- An authenticated principal (`req.user`), attached by the external
authentication collaborator. -/
structure Principal where
  id : String
  role : String
deriving DecidableEq, Repr

/-- A row of the `job` table (uuid primary key). -/
structure JobRow where
  id : String
  title : String
  levelId : Int
  categoryId : Int
  typeId : Int
  location : String
  description : String
  compensation : Int
  applicationLink : String
  isExternal : Bool
  companyId : Option Int
  tags : String
  isApproved : Bool
  updatedAt : Int
deriving DecidableEq, Repr

/-- A row of the `job_category` table (serial id, unique title).  The schema
file is not among the provided sources; the `updatedAt` column is modelled
from the spec's lifecycle sentence (rows carry an updatedAt timestamp). -/
structure CategoryRow where
  id : Int
  title : String
  updatedAt : Int
deriving DecidableEq, Repr

/-- A row of the `job_level` table (serial id, unique title). -/
structure LevelRow where
  id : Int
  title : String
  updatedAt : Int
deriving DecidableEq, Repr

/-- A row of the `company` table. -/
structure CompanyRow where
  id : Int
  name : String
deriving DecidableEq, Repr

/-- A row of the `user` table (uuid primary key). -/
structure UserRow where
  id : String
  email : String
  username : String
  password : String
  fullName : String
  levelId : Option Int
  categoryId : Option Int
  tags : Option String
  updatedAt : Int
deriving DecidableEq, Repr

/-- A row of the `job_saved` table. -/
structure SavedJobRow where
  userId : String
  jobId : String
deriving DecidableEq, Repr

/-- The database state: one list per table, plus the serial-id counters the
database uses to assign fresh `job_category` / `job_level` ids. -/
structure DbState where
  jobs : List JobRow
  categories : List CategoryRow
  levels : List LevelRow
  companies : List CompanyRow
  users : List UserRow
  savedJobs : List SavedJobRow
  nextCategoryId : Int
  nextLevelId : Int
deriving DecidableEq, Repr

/-- The pagination object of a paginated list response. -/
structure Pagination where
  currentPage : Int
  pageSize : Int
  totalCount : Nat
  totalPages : Nat
deriving DecidableEq, Repr

/-- One element of the `getJobs` select: the job row joined (left joins) with
the category title, level title and company name. -/
structure JobListing where
  job : JobRow
  category : Option String
  level : Option String
  companyName : Option String
deriving DecidableEq, Repr

/-- An HTTP response: the status code plus the JSON body fields the claims
talk about.  `errorDetail` is the `error:` field some handlers fill with the
caught exception's message. -/
structure HResponse where
  status : Nat
  message : Option String := none
  errorDetail : Option String := none
  jobBody : Option JobRow := none
  categoryBody : Option CategoryRow := none
  levelBody : Option LevelRow := none
  data : Option (List JobListing) := none
  pagination : Option Pagination := none
  jobIdBody : Option String := none
deriving DecidableEq, Repr

/-- ASCII lowering of one character, as JS `toLowerCase` acts on the ASCII
role strings the handlers compare. -/
def lowerChar (c : Char) : Char :=
  if 65 ≤ c.toNat ∧ c.toNat ≤ 90 then Char.ofNat (c.toNat + 32) else c

/-- `s.toLowerCase()` restricted to ASCII (the only strings compared are
role strings such as `admin`). -/
def toLowerAscii (s : String) : String := ⟨s.data.map lowerChar⟩

/-- `headMatch pat hay`: the characters of `pat` occur at the very start of
`hay`. -/
def headMatch : List Char → List Char → Bool
  | [], _ => true
  | _ :: _, [] => false
  | a :: as, b :: bs => a == b && headMatch as bs

/-- `subListChars pat hay`: the characters of `pat` occur contiguously
somewhere in `hay`. -/
def subListChars (pat : List Char) : List Char → Bool
  | [] => headMatch pat []
  | c :: t => headMatch pat (c :: t) || subListChars pat t

/-- JS `hay.includes(pat)` / SQL `LIKE '%pat%'`: substring containment. -/
def strContainsSub (hay pat : String) : Bool := subListChars pat.data hay.data

/-- The admin guard used verbatim by the job mutation handlers:
`!req.user || req.user.role.toLowerCase() != 'admin'`. -/
def adminGuardFails (user : Option Principal) : Bool :=
  match user with
  | none => true
  | some u => toLowerAscii u.role != "admin"

/-- JS `parseInt(x) || d`: `none` (absent / `NaN`) and `0` are falsy and fall
back to the default `d`; any other parsed integer is kept. -/
def jsOr (x : Option Int) (d : Int) : Int :=
  match x with
  | none => d
  | some v => if v = 0 then d else v

/-- `GET /jobs/:id` (`getJobById`): 400 when the id is missing, 404 when no
row matches, 200 with the row otherwise; a thrown database error is caught
and answered with 500 whose body carries `error: (error as Error).message`. -/
def getJobById (st : DbState) (idParam : Option String) (dbErr : Option String) :
    HResponse :=
  match idParam with
  | none => { status := 400, message := some "Job ID is required" }
  | some id =>
    match dbErr with
    | some m =>
      { status := 500, message := some "Internal Server Error", errorDetail := some m }
    | none =>
      match st.jobs.find? (fun j => j.id == id) with
      | none => { status := 404, message := some "Job not found" }
      | some j => { status := 200, jobBody := some j }

/-- `DELETE /jobs/:id` (`deleteJobById`): admin-gated; deletes every row with
the given id.  The delete carries no `.returning()`, and under the
postgres-js driver (`db/index.ts`) the awaited result is an empty `RowList`,
so `result.length === 0` always holds: the rows are deleted, yet the handler
answers 404 and its 204 branch is unreachable.  The catch block also exposes
the exception message in the `error:` body field. -/
def deleteJobById (st : DbState) (user : Option Principal) (idParam : Option String)
    (dbErr : Option String) : HResponse × DbState :=
  if adminGuardFails user then
    ({ status := 401, message := some "Unauthorized" }, st)
  else
    match idParam with
    | none => ({ status := 400, message := some "Job ID is required" }, st)
    | some id =>
      match dbErr with
      | some m =>
        ({ status := 500, message := some "Internal Server Error", errorDetail := some m }, st)
      | none =>
        ({ status := 404, message := some "Job not found" },
         { st with jobs := st.jobs.filter (fun j => j.id != id) })

/-- The payload of `JobSchema` (jobModel.ts is not among the sources; the
fields are the job columns spread into `db.update(job).set({...jobData})`,
per the spec's Job attribute list). -/
structure JobSchemaData where
  title : String
  levelId : Int
  categoryId : Int
  typeId : Int
  location : String
  description : String
  compensation : Int
  applicationLink : String
  isExternal : Bool
  companyId : Option Int
  tags : String
deriving DecidableEq, Repr

/-- `{...jobData, updatedAt: new Date()}` applied to a stored row: every
payload column is overwritten, `id` and `isApproved` are untouched, and
`updatedAt` is stamped with the current time. -/
def applyJobUpdate (j : JobRow) (d : JobSchemaData) (now : Int) : JobRow :=
  { id := j.id, title := d.title, levelId := d.levelId, categoryId := d.categoryId,
    typeId := d.typeId, location := d.location, description := d.description,
    compensation := d.compensation, applicationLink := d.applicationLink,
    isExternal := d.isExternal, companyId := d.companyId, tags := d.tags,
    isApproved := j.isApproved, updatedAt := now }

/-- `PUT /jobs/:jobId` (`updateJob`): admin-gated; `uuidOk` is the result of
`z.string().uuid().safeParse(jobId).success` (the uuid regex of the external
zod library, modelled as an oracle); `body = none` models a `ZodError` from
`JobSchema.parse` (422).  `now` is the wall clock for `new Date()`. -/
def updateJob (st : DbState) (user : Option Principal) (jobId : String) (uuidOk : Bool)
    (body : Option JobSchemaData) (now : Int) (dbErr : Option String) :
    HResponse × DbState :=
  if adminGuardFails user then
    ({ status := 401, message := some "Unauthorized" }, st)
  else if !uuidOk then
    ({ status := 400, errorDetail := some "Invalid job ID format" }, st)
  else
    match body with
    | none => ({ status := 422, errorDetail := some "Validation exception" }, st)
    | some d =>
      match dbErr with
      | some _ => ({ status := 500, errorDetail := some "Internal server error" }, st)
      | none =>
        match st.jobs.filter (fun j => j.id == jobId) with
        | [] => ({ status := 404, errorDetail := some "Job not found" }, st)
        | r :: _ =>
          ({ status := 200, jobBody := some (applyJobUpdate r d now) },
           { st with jobs :=
              st.jobs.map (fun j => if j.id == jobId then applyJobUpdate j d now else j) })

/-- The query string of `GET /jobs`, after `parseInt` (`none` = absent or
`NaN`; an absent `pageIndex`/`pageSize` defaults to the strings `1`/`10`,
i.e. `some 1`/`some 10` — but `none` behaves identically through `|| 1`). -/
structure JobsQuery where
  pageIndex : Option Int := none
  pageSize : Option Int := none
  categoryId : Option Int := none
  levelId : Option Int := none
  companyName : Option String := none
deriving DecidableEq, Repr

/-- The three left joins of the jobs listing select: each job row paired with
the matching category title, level title and company name (none when the
foreign key has no match). -/
def joinRows (st : DbState) : List JobListing :=
  st.jobs.map (fun j =>
    { job := j
      category := (st.categories.find? (fun c => c.id == j.categoryId)).map (fun c => c.title)
      level := (st.levels.find? (fun l => l.id == j.levelId)).map (fun l => l.title)
      companyName :=
        match j.companyId with
        | none => none
        | some cid => (st.companies.find? (fun c => c.id == cid)).map (fun c => c.name) })

/-- The conjunction of the `conditions` array of `getJobs`:
`eq(job.isApproved, true)` is always present; each supplied filter adds one
conjunct; the SQL `LIKE` on the company name of a job without a company
(`NULL`) matches nothing. -/
def jobsCond (q : JobsQuery) (row : JobListing) : Bool :=
  row.job.isApproved == true
  && (match q.categoryId with
      | none => true
      | some c => row.job.categoryId == c)
  && (match q.levelId with
      | none => true
      | some l => row.job.levelId == l)
  && (match q.companyName with
      | none => true
      | some nm =>
        match row.companyName with
        | some cn => strContainsSub cn nm
        | none => false)

/-- `GET /jobs` (`getJobs`): paginated approved-jobs listing.  A negative
`LIMIT`/`OFFSET` is rejected by the database, which the catch block turns
into a 500; an empty result page is answered 404; otherwise 200 with the
page and a pagination object whose `totalPages` is
`Math.ceil(totalCount / limit)`. -/
def getJobs (st : DbState) (q : JobsQuery) (dbErr : Option String) : HResponse :=
  let page := jsOr q.pageIndex 1
  let limit := jsOr q.pageSize 10
  let offset := (page - 1) * limit
  match dbErr with
  | some _ => { status := 500, errorDetail := some "Internal server error" }
  | none =>
    if limit < 0 ∨ offset < 0 then
      { status := 500, errorDetail := some "Internal server error" }
    else
      let rows := (joinRows st).filter (jobsCond q)
      let totalCount := rows.length
      let result := (rows.drop offset.toNat).take limit.toNat
      if result.isEmpty then { status := 404, message := some "No job found" }
      else
        { status := 200, data := some result,
          pagination := some
            { currentPage := page, pageSize := limit, totalCount := totalCount,
              totalPages := (totalCount + limit.toNat - 1) / limit.toNat } }

/-- The payload of `createJobSchema` (snake_case request fields, as consumed
by `submitJobForApproval`). -/
structure CreateJobData where
  title : String
  level_id : Int
  category_id : Int
  type_id : Int
  location : String
  description : String
  compensation : Int
  application_link : String
  is_external : Bool
  company_id : Option Int
  tags : String
deriving DecidableEq, Repr

/-- `POST /jobs` (`submitJobForApproval`): 401 without a principal; the row
is inserted with `isApproved` set to whether the role lowercases to `admin`;
`body = none` models a failed `safeParse` (422).  `freshId` is the uuid the
database generates for the new row, `now` its timestamp.  Note the catch
block answers 400 `Invalid input`, not 500. -/
def submitJobForApproval (st : DbState) (user : Option Principal)
    (body : Option CreateJobData) (freshId : String) (now : Int)
    (dbErr : Option String) : HResponse × DbState :=
  match user with
  | none => ({ status := 401, message := some "Unauthorized" }, st)
  | some u =>
    let isAdmin := toLowerAscii u.role == "admin"
    match body with
    | none => ({ status := 422, message := some "Validation error" }, st)
    | some d =>
      match dbErr with
      | some _ => ({ status := 400, message := some "Invalid input" }, st)
      | none =>
        let newJob : JobRow :=
          { id := freshId, title := d.title, levelId := d.level_id,
            categoryId := d.category_id, typeId := d.type_id,
            location := d.location, description := d.description,
            compensation := d.compensation, applicationLink := d.application_link,
            isExternal := d.is_external, companyId := d.company_id,
            tags := d.tags, isApproved := isAdmin, updatedAt := now }
        ({ status := 202, message := some "Job submitted for approval",
           jobIdBody := some freshId },
         { st with jobs := st.jobs ++ [newJob] })

/-- `PUT /jobs/:jobId/approve` (`approveJob`): admin-gated; sets
`isApproved := true` on every row with the id and returns the first returned
id; 404 when nothing matched. -/
def approveJob (st : DbState) (user : Option Principal) (jobIdParam : Option String)
    (dbErr : Option String) : HResponse × DbState :=
  if adminGuardFails user then
    ({ status := 401, message := some "Unauthorized" }, st)
  else
    match jobIdParam with
    | none => ({ status := 400, message := some "Invalid job ID" }, st)
    | some jid =>
      match dbErr with
      | some _ => ({ status := 500, message := some "Internal server error" }, st)
      | none =>
        if (st.jobs.filter (fun j => j.id == jid)).isEmpty then
          ({ status := 404, message := some "Job not found" }, st)
        else
          ({ status := 200, message := some "Job approved successfully",
             jobIdBody := some jid },
           { st with jobs :=
              st.jobs.map (fun j => if j.id == jid then { j with isApproved := true } else j) })

/-- `DELETE /jobs/:jobId/reject` (`rejectJob`): admin-gated; deletes the row
outright and returns the first deleted row. -/
def rejectJob (st : DbState) (user : Option Principal) (jobIdParam : Option String)
    (dbErr : Option String) : HResponse × DbState :=
  if adminGuardFails user then
    ({ status := 401, message := some "Unauthorized" }, st)
  else
    match jobIdParam with
    | none => ({ status := 400, message := some "Invalid job ID" }, st)
    | some jid =>
      match dbErr with
      | some _ => ({ status := 500, message := some "Internal server error" }, st)
      | none =>
        let deleted := st.jobs.filter (fun j => j.id == jid)
        match deleted with
        | [] => ({ status := 404, message := some "Job not found" }, st)
        | r :: _ =>
          ({ status := 200, message := some "Job rejected successfully",
             jobBody := some r },
           { st with jobs := st.jobs.filter (fun j => j.id != jid) })

/-- The message of the `TypeError` JS raises for `new error(...)` when
`error` is a caught `Error` value, not a constructor
(`createJobCategory`'s rewritten rejection). -/
def notAConstructorMsg : String := "error is not a constructor"

/-- The message of the `TypeError` JS raises for `error(...)` when `error`
is a caught `Error` value, not a function (`createJobLevel`'s rewritten
rejection). -/
def notAFunctionMsg : String := "error is not a function"

/-- The prefix-shaped message of a postgres uniqueness violation. -/
def uniqueViolationMsg : String := "duplicate key value violates unique constraint"

/-- The rejection, if any, of the category insert: an injected database
error, or the uniqueness violation raised when the title is already
stored. -/
def categoryInsertError (st : DbState) (title : String) (dbErr : Option String) :
    Option String :=
  match dbErr with
  | some m => some m
  | none =>
    if st.categories.any (fun c => c.title == title) then some uniqueViolationMsg
    else none

/-- The rejection, if any, of the level insert. -/
def levelInsertError (st : DbState) (title : String) (dbErr : Option String) :
    Option String :=
  match dbErr with
  | some m => some m
  | none =>
    if st.levels.any (fun l => l.title == title) then some uniqueViolationMsg
    else none

/-- The rejection, if any, of the category update: an injected database
error, or the uniqueness violation raised when the update would retitle an
existing row to another row's title. -/
def categoryUpdateError (st : DbState) (idParam : Option Int) (title : String)
    (dbErr : Option String) : Option String :=
  match dbErr with
  | some m => some m
  | none =>
    match idParam with
    | none => none
    | some cid =>
      if st.categories.any (fun c => c.id == cid)
          && st.categories.any (fun c => c.title == title && c.id != cid) then
        some uniqueViolationMsg
      else none

/-- The rejection, if any, of the level update. -/
def levelUpdateError (st : DbState) (idParam : Option Int) (title : String)
    (dbErr : Option String) : Option String :=
  match dbErr with
  | some m => some m
  | none =>
    match idParam with
    | none => none
    | some lid =>
      if st.levels.any (fun l => l.id == lid)
          && st.levels.any (fun l => l.title == title && l.id != lid) then
        some uniqueViolationMsg
      else none

/-- `POST /job-categories` (`createJobCategory`).  No principal check occurs
in the handler body (`_user` is never read).  `JobCategorySchema.parse` sits
outside the try block, so the model receives the already-parsed `title`.  A
rejected insert (injected `dbErr`, or a duplicate title) is rewritten by the
`.catch` into a `TypeError` (`new error(...)` on a non-constructor), whose
message is then compared against `Job category already exists`; the dead 409
branch is kept as in the source, and the comparison falls through to 500. -/
def createJobCategory (st : DbState) ( _user : Option Principal) (title : String)
    (now : Int) (dbErr : Option String) : HResponse × DbState :=
  match categoryInsertError st title dbErr with
  | some _ =>
    if notAConstructorMsg == "Job category already exists" then
      ({ status := 409, message := some notAConstructorMsg }, st)
    else
      ({ status := 500, message := some "Internal server error" }, st)
  | none =>
    let newCat : CategoryRow := { id := st.nextCategoryId, title := title, updatedAt := now }
    ({ status := 201, message := some "Job category created successfully",
       categoryBody := some newCat },
     { st with categories := st.categories ++ [newCat],
               nextCategoryId := st.nextCategoryId + 1 })

/-- `GET /job-categories/:id` (`getCategoryById`): `idParam` is
`parseInt(id, 10)` (`none` = `NaN`, which matches no row); 404 when no row
matches, else 200 with the first matching row. -/
def getCategoryById (st : DbState) (idParam : Option Int) (dbErr : Option String) :
    HResponse :=
  match dbErr with
  | some _ => { status := 500, message := some "Internal server error" }
  | none =>
    match idParam with
    | none => { status := 404, message := some "Category not found" }
    | some cid =>
      match st.categories.filter (fun c => c.id == cid) with
      | [] => { status := 404, message := some "Category not found" }
      | c :: _ => { status := 200, categoryBody := some c }

/-- `PUT /job-categories/:id` (`upadteJobCategory`, source typo kept).  No
principal check; `body = none` models a `ZodError` (400); `_now` is the wall
clock at the call — the source sets only `title`, stamping no timestamp.  A
rejected update whose message contains `unique constraint` is answered 409;
other rejections 500. -/
def upadteJobCategory (st : DbState) ( _user : Option Principal) (idParam : Option Int)
    (body : Option String) ( _now : Int) (dbErr : Option String) :
    HResponse × DbState :=
  match body with
  | none => ({ status := 400, message := some "Invalid input" }, st)
  | some title =>
    match categoryUpdateError st idParam title dbErr with
    | some m =>
      if strContainsSub m "unique constraint" then
        ({ status := 409, message := some "A job category with this title already exists" }, st)
      else
        ({ status := 500, message := some "Internal server error" }, st)
    | none =>
      match idParam with
      | none => ({ status := 404, message := some "Job category not found" }, st)
      | some cid =>
        match st.categories.filter (fun c => c.id == cid) with
        | [] => ({ status := 404, message := some "Job category not found" }, st)
        | r :: _ =>
          ({ status := 200, message := some "Job category updated successfully",
             categoryBody := some { r with title := title } },
           { st with categories :=
              st.categories.map (fun c => if c.id == cid then { c with title := title } else c) })

/-- `DELETE /job-categories/:id` (`deleteJobCategory`).  No principal
check. -/
def deleteJobCategory (st : DbState) ( _user : Option Principal) (idParam : Option Int)
    (dbErr : Option String) : HResponse × DbState :=
  match dbErr with
  | some _ => ({ status := 500, errorDetail := some "Internal server error" }, st)
  | none =>
    match idParam with
    | none => ({ status := 404, errorDetail := some "Job category not found" }, st)
    | some cid =>
      match st.categories.filter (fun c => c.id == cid) with
      | [] => ({ status := 404, errorDetail := some "Job category not found" }, st)
      | r :: _ =>
        ({ status := 200, message := some "Job category deleted successfully",
           categoryBody := some r },
         { st with categories := st.categories.filter (fun c => c.id != cid) })

/-- `POST /job-levels` (`createJobLevel`).  No principal check; the parse is
inside the try block, so `body = none` models a `ZodError` (400).  A
rejected insert is rewritten by the `.catch` (`throw error(...)`, calling the
caught value) into a `TypeError`, and the 409 comparison again falls through
to 500. -/
def createJobLevel (st : DbState) ( _user : Option Principal) (body : Option String)
    (now : Int) (dbErr : Option String) : HResponse × DbState :=
  match body with
  | none => ({ status := 400, message := some "Invalid input" }, st)
  | some title =>
    match levelInsertError st title dbErr with
    | some _ =>
      if notAFunctionMsg == "Job category already exists" then
        ({ status := 409, message := some notAFunctionMsg }, st)
      else
        ({ status := 500, message := some "Internal server error" }, st)
    | none =>
      let newLevel : LevelRow := { id := st.nextLevelId, title := title, updatedAt := now }
      ({ status := 201, message := some "Job category created successfully",
         levelBody := some newLevel },
       { st with levels := st.levels ++ [newLevel],
                 nextLevelId := st.nextLevelId + 1 })

/-- `GET /job-levels/:id` (`getJobLevelById`). -/
def getJobLevelById (st : DbState) (idParam : Option Int) (dbErr : Option String) :
    HResponse :=
  match dbErr with
  | some _ => { status := 500, message := some "Internal server error" }
  | none =>
    match idParam with
    | none => { status := 404, message := some "Category not found" }
    | some lid =>
      match st.levels.filter (fun l => l.id == lid) with
      | [] => { status := 404, message := some "Category not found" }
      | l :: _ => { status := 200, levelBody := some l }

/-- `PUT /job-levels/:id` (`updateJobLevel`).  No principal check; like the
category update, only `title` is written — no timestamp is stamped. -/
def updateJobLevel (st : DbState) ( _user : Option Principal) (idParam : Option Int)
    (body : Option String) ( _now : Int) (dbErr : Option String) :
    HResponse × DbState :=
  match body with
  | none => ({ status := 400, message := some "Invalid input" }, st)
  | some title =>
    match levelUpdateError st idParam title dbErr with
    | some m =>
      if strContainsSub m "unique constraint" then
        ({ status := 409, message := some "A job level with this title already exists" }, st)
      else
        ({ status := 500, message := some "Internal server error" }, st)
    | none =>
      match idParam with
      | none => ({ status := 404, message := some "Job level not found" }, st)
      | some lid =>
        match st.levels.filter (fun l => l.id == lid) with
        | [] => ({ status := 404, message := some "Job level not found" }, st)
        | r :: _ =>
          ({ status := 200, message := some "Job level updated successfully",
             levelBody := some { r with title := title } },
           { st with levels :=
              st.levels.map (fun l => if l.id == lid then { l with title := title } else l) })

/-- `DELETE /job-levels/:id` (`deleteJobLevel`).  No principal check. -/
def deleteJobLevel (st : DbState) ( _user : Option Principal) (idParam : Option Int)
    (dbErr : Option String) : HResponse × DbState :=
  match dbErr with
  | some _ => ({ status := 500, errorDetail := some "Internal server error" }, st)
  | none =>
    match idParam with
    | none => ({ status := 404, errorDetail := some "Job level not found" }, st)
    | some lid =>
      match st.levels.filter (fun l => l.id == lid) with
      | [] => ({ status := 404, errorDetail := some "Job level not found" }, st)
      | r :: _ =>
        ({ status := 200, message := some "Job level deleted successfully",
           levelBody := some r },
         { st with levels := st.levels.filter (fun l => l.id != lid) })

/-- `POST /jobs/:id/save` (`saveJob`): 400 when the job id or the principal
is missing; otherwise inserts the (user, job) pairing. -/
def saveJob (st : DbState) (user : Option Principal) (idParam : Option String)
    (dbErr : Option String) : HResponse × DbState :=
  match dbErr with
  | some _ => ({ status := 500, errorDetail := some "Internal server error" }, st)
  | none =>
    match idParam, user with
    | some id, some u =>
      let savedJob : SavedJobRow := { userId := u.id, jobId := id }
      ({ status := 200, message := some "Job saved successfully" },
       { st with savedJobs := st.savedJobs ++ [savedJob] })
    | _, _ => ({ status := 400, errorDetail := some "bad request" }, st)

namespace userRepository

/-- `userRepository.updateUserAsync`: sets fullName, levelId, categoryId,
tags and `updatedAt = new Date()` on the matching row and returns the first
updated row (drizzle skips an `undefined` value, so `tags = none` leaves the
stored tags untouched). -/
def updateUserAsync (st : DbState) (id : String) (fullName : String)
    (levelId : Int) (categoryId : Int) (tags : Option String) (now : Int) :
    Option UserRow × DbState :=
  let upd : UserRow → UserRow := fun u =>
    { u with fullName := fullName, levelId := some levelId,
             categoryId := some categoryId,
             tags := match tags with | none => u.tags | some t => some t,
             updatedAt := now }
  let updated := (st.users.filter (fun u => u.id == id)).map upd
  (updated.head?,
   { st with users := st.users.map (fun u => if u.id == id then upd u else u) })

/-- `userRepository.getPasswordAsync`: selects the password column of the
rows matching the id and evaluates `pass[0].password`.  On an empty result
set `pass[0]` is `undefined` and the member access raises a `TypeError`,
modelled as `Except.error`. -/
def getPasswordAsync (st : DbState) (id : String) : Except String String :=
  match (st.users.filter (fun u => u.id == id)).map (fun u => u.password) with
  | [] => Except.error "TypeError: cannot read properties of undefined"
  | p :: _ => Except.ok p

end userRepository

/-! ### Concrete sample states used by witnesses and counterexamples -/

/-- The empty database. -/
def emptyDb : DbState :=
  { jobs := [], categories := [], levels := [], companies := [], users := [],
    savedJobs := [], nextCategoryId := 1, nextLevelId := 1 }

/-- A principal whose role lowercases to `admin`. -/
def adminUser : Principal := { id := "u", role := "Admin" }

/-- A pending (unapproved) job row. -/
def sampleJob : JobRow :=
  { id := "a", title := "t", levelId := 1, categoryId := 1, typeId := 1,
    location := "x", description := "d", compensation := 1, applicationLink := "l",
    isExternal := false, companyId := none, tags := "", isApproved := false,
    updatedAt := 0 }

/-- An approved job row. -/
def approvedJob : JobRow := { sampleJob with id := "b", isApproved := true }

/-- A database holding one pending job. -/
def dbOneJob : DbState := { emptyDb with jobs := [sampleJob] }

/-- A database holding one approved job. -/
def dbApproved : DbState := { emptyDb with jobs := [approvedJob] }

/-- A database holding one job category titled `Engineering`. -/
def dbWithEngineering : DbState :=
  { emptyDb with categories := [{ id := 1, title := "Engineering", updatedAt := 0 }],
                 nextCategoryId := 2 }

/-- A valid create-job payload. -/
def sampleCreate : CreateJobData :=
  { title := "t", level_id := 1, category_id := 1, type_id := 1, location := "x",
    description := "d", compensation := 1, application_link := "l",
    is_external := false, company_id := none, tags := "" }

/-- A valid update-job payload. -/
def sampleUpdate : JobSchemaData :=
  { title := "t2", levelId := 2, categoryId := 2, typeId := 2, location := "y",
    description := "d2", compensation := 2, applicationLink := "l2",
    isExternal := true, companyId := none, tags := "z" }

/-! ### Helper lemmas -/

/-- The head of a non-empty filter result is a member of the base list. -/
theorem filterHeadMem {α} {p : α → Bool} {l : List α} {a : α} {t : List α}
    (h : l.filter p = a :: t) : a ∈ l := by
  have ha : a ∈ l.filter p := by rw [h]; exact List.mem_cons_self _ _
  exact List.mem_of_mem_filter ha

/-- The per-row action of the approve update: marking preserves the row
id. -/
theorem approveMark_id (jid : String) (j : JobRow) :
    (if j.id == jid then { j with isApproved := true } else j).id = j.id := by
  by_cases h : j.id == jid <;> simp [h]

/-- Marking a job list approved twice equals marking it once. -/
theorem approveMark_idem (jid : String) (l : List JobRow) :
    (l.map (fun j => if j.id == jid then { j with isApproved := true } else j)).map
        (fun j => if j.id == jid then { j with isApproved := true } else j)
      = l.map (fun j => if j.id == jid then { j with isApproved := true } else j) := by
  rw [List.map_map]
  refine List.map_congr_left ?_
  intro a _
  by_cases h : a.id == jid <;> simp [Function.comp, h]

/-- A list containing a row with the given id has a non-empty filter on that
id. -/
theorem filter_id_not_empty {l : List JobRow} {jid : String} {j : JobRow}
    (hj : j ∈ l) (hid : j.id = jid) :
    (l.filter (fun j => j.id == jid)).isEmpty = false := by
  have hm : j ∈ l.filter (fun j => j.id == jid) :=
    List.mem_filter.mpr ⟨hj, by simp [hid]⟩
  rcases hfe : l.filter (fun j => j.id == jid) with _ | _
  · rw [hfe] at hm; simp at hm
  · rw [hfe]; rfl

/-! ### Claims -/

/-- C1: for every accepted job-creation payload, the row inserted by
`submitJobForApproval` carries `isApproved` equal to whether the requesting
principal's role, compared case-insensitively, is `admin` — so a non-admin
submission is stored unapproved and an admin submission approved. -/
theorem submitJobForApproval_sets_isApproved_by_role
    (st : DbState) (u : Principal) (d : CreateJobData) (freshId : String) (now : Int) :
    ∃ newJob : JobRow,
      (submitJobForApproval st (some u) (some d) freshId now none).2.jobs
        = st.jobs ++ [newJob]
      ∧ newJob.isApproved = (toLowerAscii u.role == "admin") :=
  ⟨_, rfl, rfl⟩

/-- C2 counterexample: `POST /job-categories` with no principal at all is
answered 201 — not 401 — and inserts the row, because the handler performs no
authorization check. -/
theorem createJobCategory_ignores_missing_principal :
    (createJobCategory emptyDb none "Engineering" 0 none).1.status = 201
    ∧ ¬ (createJobCategory emptyDb none "Engineering" 0 none).1.status = 401
    ∧ ¬ (createJobCategory emptyDb none "Engineering" 0 none).2 = emptyDb := by
  decide

/-- C2 amended: the four job mutation handlers (update, delete, approve,
reject) answer 401 and leave the state unchanged whenever the admin guard
fails; the job-category and job-level create/update/delete handlers contain
no principal check at all — their outcome is independent of the principal. -/
theorem adminGated_mutations_401_job_routes_only :
    (∀ st user idp e, adminGuardFails user = true →
        deleteJobById st user idp e = ({ status := 401, message := some "Unauthorized" }, st))
    ∧ (∀ st user jid ok body now e, adminGuardFails user = true →
        updateJob st user jid ok body now e
          = ({ status := 401, message := some "Unauthorized" }, st))
    ∧ (∀ st user jidp e, adminGuardFails user = true →
        approveJob st user jidp e = ({ status := 401, message := some "Unauthorized" }, st))
    ∧ (∀ st user jidp e, adminGuardFails user = true →
        rejectJob st user jidp e = ({ status := 401, message := some "Unauthorized" }, st))
    ∧ (∀ st p q t now e, createJobCategory st p t now e = createJobCategory st q t now e)
    ∧ (∀ st p q idp b now e,
        upadteJobCategory st p idp b now e = upadteJobCategory st q idp b now e)
    ∧ (∀ st p q idp e, deleteJobCategory st p idp e = deleteJobCategory st q idp e)
    ∧ (∀ st p q b now e, createJobLevel st p b now e = createJobLevel st q b now e)
    ∧ (∀ st p q idp b now e,
        updateJobLevel st p idp b now e = updateJobLevel st q idp b now e)
    ∧ (∀ st p q idp e, deleteJobLevel st p idp e = deleteJobLevel st q idp e) := by
  refine ⟨?_, ?_, ?_, ?_, ?_, ?_, ?_, ?_, ?_, ?_⟩
  · intro st user idp e h; simp [deleteJobById, h]
  · intro st user jid ok body now e h; simp [updateJob, h]
  · intro st user jidp e h; simp [approveJob, h]
  · intro st user jidp e h; simp [rejectJob, h]
  · intro st p q t now e; rfl
  · intro st p q idp b now e; rfl
  · intro st p q idp e; rfl
  · intro st p q b now e; rfl
  · intro st p q idp b now e; rfl
  · intro st p q idp e; rfl

/-- C2 amended, witness: a delete with no principal on the one-job database
is answered 401 and deletes nothing. -/
theorem adminGated_mutations_401_job_routes_only_witness :
    deleteJobById dbOneJob none (some "a") none
      = ({ status := 401, message := some "Unauthorized" }, dbOneJob) :=
  adminGated_mutations_401_job_routes_only.1 dbOneJob none (some "a") none (by decide)

/-- C3 (code bug): a duplicate-title `POST /job-categories` is answered 500,
not 409 — the `.catch` rewrites the uniqueness rejection via `new error(...)`
(calling the caught `Error` value as a constructor), so the handler's own
`Job category already exists` ⇒ 409 comparison can never match. -/
theorem createJobCategory_duplicate_title_gives_500 :
    (createJobCategory dbWithEngineering none "Engineering" 0 none).1.status = 500
    ∧ ¬ (createJobCategory dbWithEngineering none "Engineering" 0 none).1.status = 409
    ∧ (createJobCategory dbWithEngineering none "Engineering" 0 none).2
        = dbWithEngineering := by
  decide

/-- C5 counterexample: a successful `PUT /job-categories/1` performed while
the wall clock reads 5 returns and stores the row with its old
`updatedAt = 0` — the handler writes only `title`, stamping no timestamp. -/
theorem upadteJobCategory_does_not_stamp_updatedAt :
    (upadteJobCategory dbWithEngineering none (some 1) (some "Design") 5 none).1.status = 200
    ∧ (upadteJobCategory dbWithEngineering none (some 1) (some "Design") 5 none).1.categoryBody
        = some { id := 1, title := "Design", updatedAt := 0 }
    ∧ (upadteJobCategory dbWithEngineering none (some 1) (some "Design") 5 none).2.categories
        = [{ id := 1, title := "Design", updatedAt := 0 }]
    ∧ (0 : Int) ≠ 5 := by
  decide

/-- C5 amended: the job update and the user update stamp the written row's
`updatedAt` with the current time, but the job-category and job-level updates
write only the title and leave `updatedAt` exactly as stored. -/
theorem update_handlers_updatedAt :
    (∀ st user jid ok body now e r,
        (updateJob st user jid ok body now e).1.jobBody = some r → r.updatedAt = now)
    ∧ (∀ st id fn lv cat tags now r,
        (userRepository.updateUserAsync st id fn lv cat tags now).1 = some r →
          r.updatedAt = now)
    ∧ (∀ st user idp body now e r,
        (upadteJobCategory st user idp body now e).1.categoryBody = some r →
          ∃ old ∈ st.categories, r.id = old.id ∧ r.updatedAt = old.updatedAt)
    ∧ (∀ st user idp body now e r,
        (updateJobLevel st user idp body now e).1.levelBody = some r →
          ∃ old ∈ st.levels, r.id = old.id ∧ r.updatedAt = old.updatedAt) := by
  refine ⟨?_, ?_, ?_, ?_⟩
  · intro st user jid ok body now e r h
    unfold updateJob at h
    split at h
    · simp at h
    · split at h
      · simp at h
      · split at h
        · simp at h
        · split at h
          · simp at h
          · split at h
            · simp at h
            · simp at h
              subst h
              rfl
  · intro st id fn lv cat tags now r h
    unfold userRepository.updateUserAsync at h
    simp only at h
    rcases hl : st.users.filter (fun u => u.id == id) with _ | ⟨u, us⟩
    · rw [hl] at h; simp at h
    · rw [hl] at h
      simp only [List.map_cons, List.head?_cons, Option.some.injEq] at h
      subst h
      rfl
  · intro st user idp body now e r h
    unfold upadteJobCategory at h
    split at h
    · simp at h
    · split at h
      · split at h <;> simp at h
      · split at h
        · simp at h
        · split at h
          · simp at h
          · rename_i old rest hfil
            simp at h
            subst h
            exact ⟨old, filterHeadMem hfil, rfl, rfl⟩
  · intro st user idp body now e r h
    unfold updateJobLevel at h
    split at h
    · simp at h
    · split at h
      · split at h <;> simp at h
      · split at h
        · simp at h
        · split at h
          · simp at h
          · rename_i old rest hfil
            simp at h
            subst h
            exact ⟨old, filterHeadMem hfil, rfl, rfl⟩

/-- C5 amended, witness: the admin job update at time 7 returns the row
stamped `updatedAt = 7`. -/
theorem update_handlers_updatedAt_witness :
    (applyJobUpdate sampleJob sampleUpdate 7).updatedAt = 7 :=
  update_handlers_updatedAt.1 dbOneJob (some adminUser) "a" true (some sampleUpdate)
    7 none (applyJobUpdate sampleJob sampleUpdate 7) (by decide)

/-- C8 counterexample: a storage error thrown inside `getJobById` is answered
500 with the exception's message copied into the body's `error:` field, and
the same error inside `submitJobForApproval` is answered 400, not 500. -/
theorem catch_blocks_leak_or_misclassify :
    (getJobById emptyDb (some "a") (some "connection refused at 10.0.0.7")).status = 500
    ∧ (getJobById emptyDb (some "a") (some "connection refused at 10.0.0.7")).errorDetail
        = some "connection refused at 10.0.0.7"
    ∧ (submitJobForApproval emptyDb (some adminUser) (some sampleCreate) "b" 0
        (some "connection refused at 10.0.0.7")).1.status = 400 := by
  decide

/-- C8 amended: every one of the sixteen handlers catches a thrown storage
error, but the responses differ: `getJobById` and `deleteJobById` answer 500
with the exception message exposed in the `error:` body field,
`submitJobForApproval` answers 400 `Invalid input`, the category and level
update handlers answer 409 when the error's message contains
`unique constraint` and a generic 500 otherwise, and the remaining handlers
answer 500 with a generic message. -/
theorem storage_error_responses :
    (∀ st idp m, getJobById st (some idp) (some m)
        = { status := 500, message := some "Internal Server Error", errorDetail := some m })
    ∧ (∀ st user idp m, adminGuardFails user = false →
        deleteJobById st user (some idp) (some m)
          = ({ status := 500, message := some "Internal Server Error",
               errorDetail := some m }, st))
    ∧ (∀ st u d fid now m,
        submitJobForApproval st (some u) (some d) fid now (some m)
          = ({ status := 400, message := some "Invalid input" }, st))
    ∧ (∀ st user jid d now m, adminGuardFails user = false →
        updateJob st user jid true (some d) now (some m)
          = ({ status := 500, errorDetail := some "Internal server error" }, st))
    ∧ (∀ st q m, getJobs st q (some m)
        = { status := 500, errorDetail := some "Internal server error" })
    ∧ (∀ st user jidp m, adminGuardFails user = false →
        approveJob st user (some jidp) (some m)
          = ({ status := 500, message := some "Internal server error" }, st))
    ∧ (∀ st user jidp m, adminGuardFails user = false →
        rejectJob st user (some jidp) (some m)
          = ({ status := 500, message := some "Internal server error" }, st))
    ∧ (∀ st u t now m, createJobCategory st u t now (some m)
        = ({ status := 500, message := some "Internal server error" }, st))
    ∧ (∀ st idp m, getCategoryById st idp (some m)
        = { status := 500, message := some "Internal server error" })
    ∧ (∀ st u idp t now m,
        upadteJobCategory st u idp (some t) now (some m)
          = if strContainsSub m "unique constraint" then
              ({ status := 409,
                 message := some "A job category with this title already exists" }, st)
            else ({ status := 500, message := some "Internal server error" }, st))
    ∧ (∀ st u idp m, deleteJobCategory st u idp (some m)
        = ({ status := 500, errorDetail := some "Internal server error" }, st))
    ∧ (∀ st u t now m, createJobLevel st u (some t) now (some m)
        = ({ status := 500, message := some "Internal server error" }, st))
    ∧ (∀ st idp m, getJobLevelById st idp (some m)
        = { status := 500, message := some "Internal server error" })
    ∧ (∀ st u idp t now m,
        updateJobLevel st u idp (some t) now (some m)
          = if strContainsSub m "unique constraint" then
              ({ status := 409,
                 message := some "A job level with this title already exists" }, st)
            else ({ status := 500, message := some "Internal server error" }, st))
    ∧ (∀ st u idp m, deleteJobLevel st u idp (some m)
        = ({ status := 500, errorDetail := some "Internal server error" }, st))
    ∧ (∀ st u idp m, saveJob st u idp (some m)
        = ({ status := 500, errorDetail := some "Internal server error" }, st)) := by
  refine ⟨?_, ?_, ?_, ?_, ?_, ?_, ?_, ?_, ?_, ?_, ?_, ?_, ?_, ?_, ?_, ?_⟩
  · intro st idp m; rfl
  · intro st user idp m h; simp [deleteJobById, h]
  · intro st u d fid now m; rfl
  · intro st user jid d now m h; simp [updateJob, h]
  · intro st q m; rfl
  · intro st user jidp m h; simp [approveJob, h]
  · intro st user jidp m h; simp [rejectJob, h]
  · intro st u t now m; rfl
  · intro st idp m; rfl
  · intro st u idp t now m; rfl
  · intro st u idp m; rfl
  · intro st u t now m; rfl
  · intro st idp m; rfl
  · intro st u idp t now m; rfl
  · intro st u idp m; rfl
  · intro st u idp m; rfl

/-- C8 amended, witness: an admin-gated job update hit by a storage error
answers 500 with the generic body. -/
theorem storage_error_responses_witness :
    updateJob dbOneJob (some adminUser) "a" true (some sampleUpdate) 0 (some "boom")
      = ({ status := 500, errorDetail := some "Internal server error" }, dbOneJob) :=
  storage_error_responses.2.2.2.1 dbOneJob (some adminUser) "a" sampleUpdate 0 "boom"
    (by decide)

/-- C10: `userRepository.getPasswordAsync` invoked with an id that matches no
stored user reads `pass[0].password` of an empty result set and raises a
`TypeError` instead of returning a value. -/
theorem getPasswordAsync_throws_on_missing_user (st : DbState) (id : String)
    (h : ∀ u ∈ st.users, u.id ≠ id) :
    userRepository.getPasswordAsync st id
      = Except.error "TypeError: cannot read properties of undefined" := by
  unfold userRepository.getPasswordAsync
  have hfil : st.users.filter (fun u => u.id == id) = [] := by
    refine List.filter_eq_nil_iff.mpr ?_
    intro u hu
    simpa using h u hu
  rw [hfil]
  rfl

/-- C10 witness: on the empty database every lookup raises. -/
theorem getPasswordAsync_throws_on_missing_user_witness :
    userRepository.getPasswordAsync emptyDb "a"
      = Except.error "TypeError: cannot read properties of undefined" :=
  getPasswordAsync_throws_on_missing_user emptyDb "a" (by decide)

/-- C9: every row of a `getJobs` response page is an approved job — the
`conditions` array always contains `eq(job.isApproved, true)`, whatever the
optional category/level/company filters are. -/
theorem getJobs_lists_only_approved (st : DbState) (q : JobsQuery) (e : Option String)
    (row : JobListing) (h : row ∈ (getJobs st q e).data.getD []) :
    row.job.isApproved = true := by
  simp only [getJobs] at h
  split at h
  · simp at h
  · split at h
    · simp at h
    · split at h
      · simp at h
      · simp only [Option.getD_some] at h
        have h1 : row ∈ (joinRows st).filter (jobsCond q) :=
          List.mem_of_mem_drop (List.mem_of_mem_take h)
        have h2 := List.of_mem_filter h1
        simp [jobsCond] at h2
        exact h2.1.1.1

/-- C9 witness: the approved job of `dbApproved` appears in the default
listing, approved. -/
theorem getJobs_lists_only_approved_witness :
    ({ job := approvedJob, category := none, level := none, companyName := none }
        : JobListing).job.isApproved = true :=
  getJobs_lists_only_approved dbApproved {} none
    { job := approvedJob, category := none, level := none, companyName := none }
    (by decide)

/-- C4 counterexample: requesting `pageIndex=0` still succeeds (200), but the
response's `currentPage` is the `|| 1` default `1`, not the requested `0`. -/
theorem getJobs_currentPage_not_echoing_zero :
    (getJobs dbApproved { pageIndex := some 0 } none).status = 200
    ∧ (getJobs dbApproved { pageIndex := some 0 } none).pagination
        = some { currentPage := 1, pageSize := 10, totalCount := 1, totalPages := 1 }
    ∧ (1 : Int) ≠ 0 := by
  decide

/-- C4 amended: the pagination object of every successful `getJobs` response
satisfies `totalPages = ceil(totalCount / pageSize)` (the Nat ceiling
division is written out), and `currentPage` is `parseInt(pageIndex) || 1`:
it echoes the requested page index whenever that parses to a nonzero
integer, and falls back to `1` when the index is absent, unparseable, or
`0`. -/
theorem getJobs_pagination_shape (st : DbState) (q : JobsQuery) (e : Option String)
    (pg : Pagination) (h : (getJobs st q e).pagination = some pg) :
    pg.totalPages = (pg.totalCount + pg.pageSize.toNat - 1) / pg.pageSize.toNat
    ∧ pg.currentPage = jsOr q.pageIndex 1
    ∧ ∀ p, q.pageIndex = some p → p ≠ 0 → pg.currentPage = p := by
  simp only [getJobs] at h
  split at h
  · simp at h
  · split at h
    · simp at h
    · split at h
      · simp at h
      · simp only [Option.some.injEq] at h
        subst h
        refine ⟨rfl, rfl, ?_⟩
        intro p hp hpne
        simp [jsOr, hp, hpne]

/-- C4 amended, witness: the default listing of the one-approved-job database
has `totalPages = ceil(1/10) = 1` and `currentPage = 1`. -/
theorem getJobs_pagination_shape_witness :
    ({ currentPage := 1, pageSize := 10, totalCount := 1, totalPages := 1 }
        : Pagination).totalPages
      = (({ currentPage := 1, pageSize := 10, totalCount := 1, totalPages := 1 }
            : Pagination).totalCount
          + ({ currentPage := 1, pageSize := 10, totalCount := 1, totalPages := 1 }
              : Pagination).pageSize.toNat - 1)
        / ({ currentPage := 1, pageSize := 10, totalCount := 1, totalPages := 1 }
            : Pagination).pageSize.toNat
    ∧ ({ currentPage := 1, pageSize := 10, totalCount := 1, totalPages := 1 }
        : Pagination).currentPage = jsOr ({} : JobsQuery).pageIndex 1
    ∧ ∀ p, ({} : JobsQuery).pageIndex = some p → p ≠ 0 →
        ({ currentPage := 1, pageSize := 10, totalCount := 1, totalPages := 1 }
            : Pagination).currentPage = p :=
  getJobs_pagination_shape dbApproved {} none
    { currentPage := 1, pageSize := 10, totalCount := 1, totalPages := 1 } (by decide)

/-- C6: with an admin principal and a stored job id, approving twice answers
200 both times, the job is stored approved, and the state after the second
call equals the state after the first — the second approve is a storage
no-op. -/
theorem approveJob_twice_idempotent (st : DbState) (user : Option Principal) (jid : String)
    (hadmin : adminGuardFails user = false)
    (hexists : ∃ j ∈ st.jobs, j.id = jid) :
    (approveJob st user (some jid) none).1.status = 200
    ∧ (approveJob (approveJob st user (some jid) none).2 user (some jid) none).1.status = 200
    ∧ (approveJob (approveJob st user (some jid) none).2 user (some jid) none).2
        = (approveJob st user (some jid) none).2
    ∧ (∀ j ∈ (approveJob st user (some jid) none).2.jobs, j.id = jid → j.isApproved = true) := by
  obtain ⟨j0, hj0, hid⟩ := hexists
  have hne1 := filter_id_not_empty hj0 hid
  have e1 : approveJob st user (some jid) none
      = ({ status := 200, message := some "Job approved successfully", jobIdBody := some jid },
         { st with jobs :=
            (st.jobs.map (fun j => if j.id == jid then { j with isApproved := true } else j)) }) := by
    simp [approveJob, hadmin, hne1]
  have hj0m : (if j0.id == jid then { j0 with isApproved := true } else j0)
      ∈ st.jobs.map (fun j => if j.id == jid then { j with isApproved := true } else j) :=
    List.mem_map_of_mem _ hj0
  have hid2 : (if j0.id == jid then { j0 with isApproved := true } else j0).id = jid := by
    rw [approveMark_id]; exact hid
  have hne2 := filter_id_not_empty hj0m hid2
  have e2 : approveJob
        ({ st with jobs :=
            (st.jobs.map (fun j => if j.id == jid then { j with isApproved := true } else j)) })
        user (some jid) none
      = ({ status := 200, message := some "Job approved successfully", jobIdBody := some jid },
         { st with jobs :=
            ((st.jobs.map (fun j => if j.id == jid then { j with isApproved := true } else j)).map
              (fun j => if j.id == jid then { j with isApproved := true } else j)) }) := by
    simp [approveJob, hadmin, hne2]
    exact ⟨j0, hj0, by simp [hid]⟩
  refine ⟨by rw [e1], ?_, ?_, ?_⟩
  · rw [e1, e2]
  · rw [e1, e2, approveMark_idem]
  · rw [e1]
    intro j hj hjid
    obtain ⟨a, ha, rfl⟩ := List.mem_map.mp hj
    by_cases h : a.id == jid
    · simp [h]
    · simp [h] at hjid ⊢
      exact absurd hjid (by simpa using h)

/-- C6 witness: approving the stored pending job twice on the one-job
database, as an admin. -/
theorem approveJob_twice_idempotent_witness :
    (approveJob dbOneJob (some adminUser) (some "a") none).1.status = 200
    ∧ (approveJob (approveJob dbOneJob (some adminUser) (some "a") none).2
        (some adminUser) (some "a") none).1.status = 200
    ∧ (approveJob (approveJob dbOneJob (some adminUser) (some "a") none).2
        (some adminUser) (some "a") none).2
        = (approveJob dbOneJob (some adminUser) (some "a") none).2
    ∧ (∀ j ∈ (approveJob dbOneJob (some adminUser) (some "a") none).2.jobs,
        j.id = "a" → j.isApproved = true) :=
  approveJob_twice_idempotent dbOneJob (some adminUser) "a" (by decide)
    ⟨sampleJob, by decide, by decide⟩

/-- C7: creating a category titled `T` (against a well-formed store: the
fresh serial id is unused and the title is new) answers 201 with the new
row, and fetching the returned id answers 200 with a record whose title is
`T`. -/
theorem createJobCategory_getCategoryById_roundtrip (st : DbState) (T : String) (now : Int)
    (hfresh : ∀ c ∈ st.categories, c.id ≠ st.nextCategoryId)
    (hdup : ∀ c ∈ st.categories, c.title ≠ T) :
    (createJobCategory st none T now none).1.status = 201
    ∧ (createJobCategory st none T now none).1.categoryBody
        = some { id := st.nextCategoryId, title := T, updatedAt := now }
    ∧ (getCategoryById (createJobCategory st none T now none).2
        (some st.nextCategoryId) none).status = 200
    ∧ (getCategoryById (createJobCategory st none T now none).2
        (some st.nextCategoryId) none).categoryBody
        = some { id := st.nextCategoryId, title := T, updatedAt := now } := by
  have hany : st.categories.any (fun c => c.title == T) = false := by
    rw [List.any_eq_false]
    intro c hc
    simpa using hdup c hc
  have hins : categoryInsertError st T none = none := by
    simp [categoryInsertError, hany]
  have e1 : createJobCategory st none T now none
      = ({ status := 201, message := some "Job category created successfully",
           categoryBody := some { id := st.nextCategoryId, title := T, updatedAt := now } },
         { st with
            categories :=
              st.categories ++ [{ id := st.nextCategoryId, title := T, updatedAt := now }],
            nextCategoryId := st.nextCategoryId + 1 }) := by
    simp [createJobCategory, hins]
  have h1 : st.categories.filter (fun c => c.id == st.nextCategoryId) = [] :=
    List.filter_eq_nil_iff.mpr (fun c hc => by simpa using hfresh c hc)
  refine ⟨by rw [e1], by rw [e1], ?_, ?_⟩
  · rw [e1]
    simp [getCategoryById, h1]
  · rw [e1]
    simp [getCategoryById, h1]

/-- C7 witness: the round trip on the empty database with title
`Engineering`. -/
theorem createJobCategory_getCategoryById_roundtrip_witness :
    (createJobCategory emptyDb none "Engineering" 0 none).1.status = 201
    ∧ (createJobCategory emptyDb none "Engineering" 0 none).1.categoryBody
        = some { id := emptyDb.nextCategoryId, title := "Engineering", updatedAt := 0 }
    ∧ (getCategoryById (createJobCategory emptyDb none "Engineering" 0 none).2
        (some emptyDb.nextCategoryId) none).status = 200
    ∧ (getCategoryById (createJobCategory emptyDb none "Engineering" 0 none).2
        (some emptyDb.nextCategoryId) none).categoryBody
        = some { id := emptyDb.nextCategoryId, title := "Engineering", updatedAt := 0 } :=
  createJobCategory_getCategoryById_roundtrip emptyDb "Engineering" 0 (by decide) (by decide)

end Develeb
